import Mathlib

/-!
Shallow embedding of the single-module Discord cockpit bot (src/index.js):
feed polling (pollOneFeed), seen-key deduplication, brief publishing
(publishVerticalOnce), message rendering (buildBriefMessage) and the
configuration clamp (clampInt).  Network calls and the Discord gateway are
modelled as oracles (environment records of functions); each stateful
routine is translated to a pure function returning an effect trace plus a
result, with exceptions modelled by Except / Option error values.
-/

set_option maxRecDepth 4000

/-! JavaScript string primitives.  JS string length counts UTF-16 code
units, so astral characters (such as the emoji in the message headers)
count as 2.  Slices are modelled under the assumption that a truncation
boundary does not split a surrogate pair. -/

def utf16Len (c : Char) : Nat :=
  if c.toNat < 65536 then 1 else 2

def jsLen (s : String) : Nat :=
  (s.data.map utf16Len).sum

def jsTakeChars : Nat → List Char → List Char
  | _, [] => []
  | n, c :: cs => if utf16Len c ≤ n then c :: jsTakeChars (n - utf16Len c) cs else []

/-- Model of String.prototype.slice(0, n). -/
def jsTake (n : Nat) (s : String) : String :=
  String.mk (jsTakeChars n s.data)

/-- Model of String.prototype.trim (whitespace classes approximated by
Char.isWhitespace). -/
def jsTrim (s : String) : String :=
  String.mk (((s.data.dropWhile Char.isWhitespace).reverse.dropWhile Char.isWhitespace).reverse)

/-- Model of Array.prototype.join. -/
def jsJoin (sep : String) : List String → String
  | [] => ""
  | x :: xs => xs.foldl (fun a b => a ++ sep ++ b) x

def splitNlChars : List Char → List (List Char)
  | [] => [[]]
  | c :: cs =>
    let r := splitNlChars cs
    if c = '\n' then [] :: r
    else
      match r with
      | [] => [[c]]
      | h :: t => (c :: h) :: t

/-- Model of String.prototype.split with separator a newline. -/
def jsSplitNl (s : String) : List String :=
  (splitNlChars s.data).map String.mk

/-- Model of the JS idiom `x || null` on a nullable string: a missing or
empty string becomes null. -/
def jsOrNull : Option String → Option String
  | none => none
  | some s => if s = "" then none else some s

/-- Model of `h || prev`: keep prev when h is null or empty. -/
def jsOrElse (h : Option String) (prev : Option String) : Option String :=
  match h with
  | none => prev
  | some s => if s = "" then prev else some s

/-- Result of coercing a JSON value with Number(): NaN, an infinity, or a
finite value (finite doubles modelled as rationals). -/
inductive JsNum where
  | nan : JsNum
  | posInf : JsNum
  | negInf : JsNum
  | num : ℚ → JsNum
deriving DecidableEq

/-- Model of Number.isFinite. -/
def JsNum.isFinite : JsNum → Bool
  | .num _ => true
  | _ => false

def JsNum.finiteVal : JsNum → Option ℚ
  | .num q => some q
  | _ => none

/-- Rendering of a number in a template literal; integral values are exact,
non-integral formatting is approximated (the witnesses only use integers). -/
def jsNumToString : JsNum → String
  | .nan => "NaN"
  | .posInf => "Infinity"
  | .negInf => "-Infinity"
  | .num q => if q.den = 1 then toString q.num else toString q.num ++ "/" ++ toString q.den

/-- Model of clampInt (src/index.js lines 19-23): non-finite input returns
the default, otherwise the floor of the input clamped into [mi, ma]. -/
def clampInt (n : JsNum) (d mi ma : Int) : Int :=
  match n with
  | .num x => max mi (min ma (Rat.floor x))
  | _ => d

/-! Brief message rendering (src/index.js lines 81-138). -/

/-- Backend-scored publishable item as consumed by the publisher; fields
that the code reads through optional chaining are Options. -/
structure PubItem where
  id : Option JsNum
  relevance_score : Option JsNum
  title : Option String
  summary_1 : Option String
  why_it_matters : Option String
  url : Option String
  bullets : Option (List String)
  tags : Option (List String)
deriving DecidableEq

/-- Model of fmtTags: clean, drop empties, keep six, render or empty. -/
def fmtTags (tags : Option (List String)) : String :=
  match tags with
  | none => ""
  | some ts =>
    if ts = [] then ""
    else
      let cleaned := ((ts.map jsTrim).filter (· ≠ "")).take 6
      if cleaned = [] then "" else "\n**Tags:** " ++ jsJoin (", ") cleaned

/-- Model of the regex replace of a leading bullet marker with optional
surrounding whitespace. -/
def stripMarkerChars (l : List Char) : List Char :=
  match l.dropWhile Char.isWhitespace with
  | c :: rest => if c = '-' ∨ c = '•' then rest.dropWhile Char.isWhitespace else l
  | [] => l

def stripLeadMarker (s : String) : String :=
  String.mk (stripMarkerChars s.data)

/-- Model of fmtBullets: clean, drop empties, keep five, re-bullet. -/
def fmtBullets (bullets : Option (List String)) : String :=
  match bullets with
  | none => ""
  | some bs =>
    let cleaned := ((bs.map jsTrim).filter (· ≠ "")).take 5
    if cleaned = [] then ""
    else jsJoin ("\n") (cleaned.map (fun b => "• " ++ jsTrim (stripLeadMarker b)))

def scoreOf (item : PubItem) : JsNum :=
  item.relevance_score.getD (JsNum.num 0)

def briefTitle (item : PubItem) : String :=
  let t := jsTrim (item.title.getD (""))
  if t = "" then "(untitled)" else t

def briefHeader (item : PubItem) (label : String) : String :=
  "🟣 **" ++ label ++ " Brief** | Score: **" ++ jsNumToString (scoreOf item) ++ "**"

/-- Summary, why-it-matters and url fields as read at the top of
buildBriefMessage. -/
def briefSummary (item : PubItem) : String :=
  jsTrim (item.summary_1.getD (""))

def briefWhy (item : PubItem) : String :=
  jsTrim (item.why_it_matters.getD (""))

def briefUrl (item : PubItem) : String :=
  jsTrim (item.url.getD (""))

/-- First render: all parts, empties filtered, joined by newlines
(src/index.js lines 110-121). -/
def briefFirstRender (item : PubItem) (label : String) : String :=
  jsJoin ("\n") (([briefHeader item label,
    "\n**" ++ briefTitle item ++ "**",
    if briefSummary item ≠ "" then "\n" ++ briefSummary item else "",
    if fmtBullets item.bullets ≠ "" then "\n" ++ fmtBullets item.bullets else "",
    if briefWhy item ≠ "" then "\n**Why it matters:** " ++ briefWhy item else "",
    fmtTags item.tags,
    if briefUrl item ≠ "" then "\n**Source:** " ++ briefUrl item else ""]).filter (· ≠ ""))

/-- Bullet block cut to its first three lines, as in the shrink re-render
of line 123-125. -/
def briefShortBullets (item : PubItem) : String :=
  if fmtBullets item.bullets ≠ "" then jsJoin ("\n") ((jsSplitNl (fmtBullets item.bullets)).take 3) else ""

/-- Combined shrink render of lines 123-134: bullets cut to three lines and
the tag block omitted, in the same re-render. -/
def briefSecondRender (item : PubItem) (label : String) : String :=
  jsJoin ("\n") (([briefHeader item label,
    "\n**" ++ briefTitle item ++ "**",
    if briefSummary item ≠ "" then "\n" ++ briefSummary item else "",
    if briefShortBullets item ≠ "" then "\n" ++ briefShortBullets item else "",
    if briefWhy item ≠ "" then "\n**Why it matters:** " ++ briefWhy item else "",
    if briefUrl item ≠ "" then "\n**Source:** " ++ briefUrl item else ""]).filter (· ≠ ""))

/-- Model of buildBriefMessage (src/index.js lines 100-138): first render,
one combined shrink pass when over the 1900 ceiling, then hard truncation
at 1890 with a continuation marker when still over. -/
def buildBriefMessage (item : PubItem) (label : String) : String :=
  let msg2 := if 1900 < jsLen (briefFirstRender item label) then briefSecondRender item label
    else briefFirstRender item label
  if 1900 < jsLen msg2 then jsTake 1890 msg2 ++ ("…") else msg2

/-- Render with bullets truncated to three lines but the tag list kept;
this is the intermediate stage the spec describes, used only to compare
the code against the spec wording of the two-stage reduction. -/
def briefShortBulletsRender (item : PubItem) (label : String) : String :=
  jsJoin ("\n") (([briefHeader item label,
    "\n**" ++ briefTitle item ++ "**",
    if briefSummary item ≠ "" then "\n" ++ briefSummary item else "",
    if briefShortBullets item ≠ "" then "\n" ++ briefShortBullets item else "",
    if briefWhy item ≠ "" then "\n**Why it matters:** " ++ briefWhy item else "",
    fmtTags item.tags,
    if briefUrl item ≠ "" then "\n**Source:** " ++ briefUrl item else ""]).filter (· ≠ ""))

/-- Reduction as worded by the spec, for comparison only: first truncate
the bullet list, then also drop the tag list, and only if still over the
ceiling hard-truncate. -/
def buildBriefMessageStaged (item : PubItem) (label : String) : String :=
  if jsLen (briefFirstRender item label) ≤ 1900 then briefFirstRender item label
  else if jsLen (briefShortBulletsRender item label) ≤ 1900 then briefShortBulletsRender item label
  else if jsLen (briefSecondRender item label) ≤ 1900 then briefSecondRender item label
  else jsTake 1890 (briefSecondRender item label) ++ ("…")

/-! Feed item normalization (src/index.js lines 318-362).  A parsed XML
entry is modelled by the fields the code actually probes: guid/title can be
a plain string or an object with a text child, link can be a string, one
object, or an array of objects carrying href attributes. -/

inductive TextVal where
  | str : String → TextVal
  | obj : Option String → TextVal
deriving DecidableEq

structure LinkObj where
  hrefAttr : Option String
  hrefPlain : Option String
  relAttr : Option String
deriving DecidableEq

inductive LinkVal where
  | str : String → LinkVal
  | obj : LinkObj → LinkVal
  | arr : List LinkObj → LinkVal
deriving DecidableEq

structure RawItem where
  guid : Option TextVal
  id : Option String
  link : Option LinkVal
  title : Option TextVal
deriving DecidableEq

inductive OneOrMany (α : Type) where
  | one : α → OneOrMany α
  | many : List α → OneOrMany α
deriving DecidableEq

/-- Parsed feed document: presence of rss.channel.item or feed.entry. -/
structure ParsedDoc where
  rssChannelItem : Option (OneOrMany RawItem)
  feedEntry : Option (OneOrMany RawItem)
deriving DecidableEq

/-- Model of pickRssItems: channel items first, else feed entries, a
singular entry becoming a one-element list, else empty. -/
def pickRssItems (p : ParsedDoc) : List RawItem :=
  match p.rssChannelItem with
  | some (.one i) => [i]
  | some (.many l) => l
  | none =>
    match p.feedEntry with
    | some (.one i) => [i]
    | some (.many l) => l
    | none => []

/-- Value of `x?.[#text] ?? x` inside the truthiness chain of getItemKey:
an object without a text child is truthy and stringifies as
[object Object]. -/
def textChainVal : Option TextVal → String
  | none => ""
  | some (.str s) => s
  | some (.obj (some t)) => t
  | some (.obj none) => "[object Object]"

/-- Value of the link field as read by getItemKey, which uses the
nullish chain on attribute then plain href and sees an array as absent. -/
def linkKeyVal : Option LinkVal → String
  | none => ""
  | some (.str s) => s
  | some (.obj o) =>
    (match o.hrefAttr with
     | some s => s
     | none => o.hrefPlain.getD (""))
  | some (.arr _) => ""

def jsFirstTruthy : List String → String
  | [] => ""
  | x :: xs => if x = "" then jsFirstTruthy xs else x

/-- Model of getItemKey: guid, else id, else link, else title, by JS
truthiness; trimmed and cut to 500 units. -/
def getItemKey (it : RawItem) : String :=
  let key := jsTrim (jsFirstTruthy [textChainVal it.guid, it.id.getD (""), linkKeyVal it.link, textChainVal it.title])
  if key = "" then "" else jsTake 500 key

def stripAngleChars (l : List Char) : List Char :=
  let l1 := match l with
    | '<' :: r => r
    | _ => l
  match l1.reverse with
  | '>' :: r => r.reverse
  | _ => l1

/-- Model of normLink: trim and strip one leading angle bracket and one
trailing angle bracket. -/
def normLink (s : String) : String :=
  let x := jsTrim s
  if x = "" then "" else String.mk (stripAngleChars x.data)

/-- Href read with truthiness fallbacks, as in getItemLink. -/
def hrefOrEmpty (o : LinkObj) : String :=
  let a := o.hrefAttr.getD ("")
  if a ≠ "" then a else o.hrefPlain.getD ("")

/-- Model of getItemLink: plain string link, else in an array the entry
whose rel is alternate else the first, else the single object. -/
def getItemLink (it : RawItem) : String :=
  match it.link with
  | some (.str s) => normLink s
  | some (.arr l) =>
    (match (l.find? (fun x => x.relAttr = some ("alternate"))).orElse (fun _ => l.head?) with
     | some a => normLink (hrefOrEmpty a)
     | none => normLink (""))
  | some (.obj o) => normLink (hrefOrEmpty o)
  | none => normLink ("")

/-! Feed client (pollOneFeed, src/index.js lines 418-533).  The politeness
delay and request headers have no observable effect in the model; the
fetch, the XML parse, the seen-key query and the per-link ingestion are
oracles supplied by the environment.  The report POST is recorded as an
effect and assumed to succeed. -/

structure FeedSource where
  id : String
  url : String
  vertical : String
  name : String
  etag : Option String
  last_modified : Option String
deriving DecidableEq

structure IngestResp where
  inserted : Bool
deriving DecidableEq

inductive FetchOut where
  | err : String → FetchOut
  | resp : Nat → Option String → Option String → String → FetchOut
deriving DecidableEq

structure PollEnv where
  fetchResult : FetchOut
  parse : String → Except String ParsedDoc
  seenQuery : List String → Except String (List String)
  ingest : String → Except String IngestResp

structure RssReport where
  sourceId : String
  etag : Option String
  lastModified : Option String
  lastError : Option String
  seenKeys : List String
deriving DecidableEq

inductive PollEff where
  | seenQuery : String → List String → PollEff
  | ingest : String → String → String → String → String → PollEff
  | report : RssReport → PollEff
deriving DecidableEq

structure Counts where
  fetched : Nat
  ingested : Nat
  skipped : Nat
deriving DecidableEq

/-- Case-insensitive strip of a leading http or https scheme, as the
regex replace in pollOneFeed does. -/
def stripSchemeChars (l : List Char) : List Char :=
  if List.isPrefixOf ['h', 't', 't', 'p', 's', ':', '/', '/'] (l.map Char.toLower) then l.drop 8
  else if List.isPrefixOf ['h', 't', 't', 'p', ':', '/', '/'] (l.map Char.toLower) then l.drop 7
  else l

/-- Domain of a url: scheme stripped, cut at the first slash, lowered. -/
def urlDomain (s : String) : String :=
  String.mk (((stripSchemeChars s.data).takeWhile (· ≠ '/')).map Char.toLower)

def isSecSource (url : String) : Bool :=
  urlDomain url = "www.sec.gov" || urlDomain url = "sec.gov"

def sourceTypeOf (src : FeedSource) : String :=
  if isSecSource src.url then "corporate" else "rss"

/-- Model of res.ok. -/
def resOk (st : Nat) : Bool :=
  200 ≤ st && st < 300

def rssFetchFailMsg (st : Nat) (body : String) : String :=
  "RSS fetch failed " ++ toString st ++ ": " ++ jsTake 200 body

structure PollLoopOut where
  effs : List PollEff
  ingested : Nat
  skipped : Nat
  newlySeen : List String
  err : Option String

/-- Per-item loop of pollOneFeed (lines 489-511).  There is no per-item
catch in the source: an ingestion error stops the loop and carries the
error out. -/
def pollItems (env : PollEnv) (src : FeedSource) (stype : String) (seen : List String) :
    List RawItem → PollLoopOut
  | [] => ⟨[], 0, 0, [], none⟩
  | it :: rest =>
    let key := getItemKey it
    let link := getItemLink it
    if key = "" ∨ link = "" then pollItems env src stype seen rest
    else if key ∈ seen then
      let r := pollItems env src stype seen rest
      { r with skipped := r.skipped + 1 }
    else
      let eff := PollEff.ingest link src.vertical src.id src.name stype
      match env.ingest link with
      | .error e => ⟨[eff], 0, 0, [], some e⟩
      | .ok out =>
        let r := pollItems env src stype seen rest
        { effs := eff :: r.effs,
          ingested := (if out.inserted then 1 else 0) + r.ingested,
          skipped := (if out.inserted then 0 else 1) + r.skipped,
          newlySeen := key :: r.newlySeen,
          err := r.err }

structure PollBodyOut where
  effs : List PollEff
  etagV : Option String
  lmV : Option String
  result : Except String Counts

/-- Body of the try block of pollOneFeed, tracking the current local
values of the etag and last-modified variables at every exit point. -/
def pollOneFeedBody (env : PollEnv) (maxItems : Nat) (src : FeedSource) : PollBodyOut :=
  let etag0 := jsOrNull src.etag
  let lm0 := jsOrNull src.last_modified
  let stype := sourceTypeOf src
  match env.fetchResult with
  | .err e => ⟨[], etag0, lm0, .error e⟩
  | .resp status etagH lmH body =>
    if status = 304 then
      ⟨[PollEff.report ⟨src.id, etag0, lm0, none, []⟩], etag0, lm0, .ok ⟨0, 0, 0⟩⟩
    else if resOk status = false then
      ⟨[], etag0, lm0, .error (rssFetchFailMsg status body)⟩
    else
      let etag1 := jsOrElse etagH etag0
      let lm1 := jsOrElse lmH lm0
      match env.parse body with
      | .error pe => ⟨[], etag1, lm1, .error pe⟩
      | .ok parsed =>
        let items := (pickRssItems parsed).take maxItems
        let keys := (items.map getItemKey).filter (· ≠ "")
        let seenStep : List PollEff × Except String (List String) :=
          if keys = [] then ([], .ok [])
          else ([PollEff.seenQuery src.id keys], env.seenQuery keys)
        match seenStep.2 with
        | .error e => ⟨seenStep.1, etag1, lm1, .error e⟩
        | .ok seen =>
          let lp := pollItems env src stype seen items
          match lp.err with
          | some e => ⟨seenStep.1 ++ lp.effs, etag1, lm1, .error e⟩
          | none =>
            ⟨seenStep.1 ++ lp.effs ++ [PollEff.report ⟨src.id, etag1, lm1, none, lp.newlySeen⟩],
             etag1, lm1, .ok ⟨items.length, lp.ingested, lp.skipped⟩⟩

/-- Model of pollOneFeed: the try body, with the catch block reporting the
current validator variables, the error text and an empty newly-seen list,
then re-raising. -/
def pollOneFeed (env : PollEnv) (maxItems : Nat) (src : FeedSource) :
    List PollEff × Except String Counts :=
  let b := pollOneFeedBody env maxItems src
  match b.result with
  | .ok c => (b.effs, .ok c)
  | .error e => (b.effs ++ [PollEff.report ⟨src.id, b.etagV, b.lmV, some e, []⟩], .error e)

/-! Publisher (src/index.js lines 206-311).  The backend unposted query,
the Discord channel fetch, the channel send and the mark-posted POST are
oracles; logToBotLogs swallows every failure and is recorded as a log
effect that always succeeds.  The per-vertical locks are a map from the
vertical name to a boolean. -/

inductive PubEff where
  | fetchUnposted : String → Nat → PubEff
  | channelFetch : String → PubEff
  | send : String → String → PubEff
  | markPosted : List ℚ → PubEff
  | log : String → PubEff
deriving DecidableEq

structure PubEnv where
  reeBrief : String
  coalBrief : String
  triageChannel : String
  publishLimit : Nat
  triageScore : Int
  fetchUnposted : String → Nat → Except String (List PubItem)
  chFetch : String → Except String Bool
  send : String → String → Except String Unit
  markPosted : List ℚ → Except String Nat

/-- Model of fetchTextChannel: a falsy channel id resolves to null without
a gateway call, otherwise the fetch oracle answers whether the channel is
text based (or fails). -/
def fetchTextChannel (env : PubEnv) (cid : String) : List PubEff × Except String Bool :=
  if cid = "" then ([], .ok false) else ([PubEff.channelFetch cid], env.chFetch cid)

/-- Message posted to the vertical channel: the brief plus the raw url in
angle brackets, where an absent url field renders as the string undefined. -/
def pubMsg (item : PubItem) (label : String) : String :=
  buildBriefMessage item label ++ "\n<" ++ (item.url.getD ("undefined")) ++ ">"

/-- Coercion of the item id as in `Number(item?.id)` followed by the
finiteness test. -/
def idVal (item : PubItem) : Option ℚ :=
  JsNum.finiteVal (item.id.getD JsNum.nan)

def triageMsg (label : String) (score : JsNum) (msg : String) : String :=
  "🚨 **High-signal " ++ label ++ "** (Score: **" ++ jsNumToString score ++ "**)\n\n" ++ msg

def triageLogMsg (v : String) (q : ℚ) (score : JsNum) : String :=
  "🚨 Triage posted " ++ v ++ " processed_item_id=" ++ jsNumToString (JsNum.num q) ++ " score=" ++ jsNumToString score

def postedLogMsg (v : String) (q : ℚ) : String :=
  "📣 Posted " ++ v ++ " processed_item_id=" ++ jsNumToString (JsNum.num q)

def pubCrashMsg (v e : String) : String :=
  "🔥 Publisher crash (" ++ v ++ "): " ++ e

/-- Effects of the markPosted call for one id followed by the posted log
line, or the bare call when it fails. -/
def markEffs (env : PubEnv) (v : String) (q : ℚ) : List PubEff :=
  match env.markPosted [q] with
  | .error _ => [PubEff.markPosted [q]]
  | .ok _ => [PubEff.markPosted [q], PubEff.log (postedLogMsg v q)]

def markErr (env : PubEnv) (q : ℚ) : Option String :=
  match env.markPosted [q] with
  | .error e => some e
  | .ok _ => none

/-- One iteration of the item loop of publishVerticalOnce (lines 284-300):
skip non-positive or non-finite ids, send the brief, conditionally send
and log the triage escalation, mark posted, log the publish.  Any thrown
error stops the loop. -/
def pubStep (env : PubEnv) (v label cid : String) (triageOk : Bool) (item : PubItem) :
    List PubEff × Option String :=
  match idVal item with
  | none => ([], none)
  | some q =>
    if q ≤ 0 then ([], none)
    else
      let msg := pubMsg item label
      match env.send cid msg with
      | .error e => ([PubEff.send cid msg], some e)
      | .ok _ =>
        let score := scoreOf item
        let tstep : List PubEff × Option String :=
          match JsNum.finiteVal score with
          | some s =>
            if triageOk ∧ (env.triageScore : ℚ) ≤ s then
              match env.send env.triageChannel (triageMsg label score msg) with
              | .error e => ([PubEff.send env.triageChannel (triageMsg label score msg)], some e)
              | .ok _ => ([PubEff.send env.triageChannel (triageMsg label score msg),
                           PubEff.log (triageLogMsg v q score)], none)
            else ([], none)
          | none => ([], none)
        match tstep.2 with
        | some e => (PubEff.send cid msg :: tstep.1, some e)
        | none => (PubEff.send cid msg :: tstep.1 ++ markEffs env v q, markErr env q)

/-- The item loop: items in order, stopping at the first thrown error. -/
def pubLoop (env : PubEnv) (v label cid : String) (triageOk : Bool) :
    List PubItem → List PubEff × Option String
  | [] => ([], none)
  | it :: rest =>
    match pubStep env v label cid triageOk it with
    | (effs, some e) => (effs, some e)
    | (effs, none) =>
      let r := pubLoop env v label cid triageOk rest
      (effs ++ r.1, r.2)

/-- Channel id and label for a vertical (lines 258-269); unsupported
verticals return early. -/
def pubChannel (env : PubEnv) (v : String) : Option (String × String) :=
  if v = "ree" then some (env.reeBrief, "REE")
  else if v = "coal" then some (env.coalBrief, "Coal")
  else none

/-- Body of the try block of publishVerticalOnce (lines 255-300). -/
def pubBody (env : PubEnv) (v : String) : List PubEff × Option String :=
  match pubChannel env v with
  | none => ([], none)
  | some (cid, label) =>
    if cid = "" then ([], none)
    else
      match env.fetchUnposted v env.publishLimit with
      | .error e => ([PubEff.fetchUnposted v env.publishLimit], some e)
      | .ok items =>
        if items = [] then ([PubEff.fetchUnposted v env.publishLimit], none)
        else
          let f1 := fetchTextChannel env cid
          match f1.2 with
          | .error e => (PubEff.fetchUnposted v env.publishLimit :: f1.1, some e)
          | .ok false =>
            (PubEff.fetchUnposted v env.publishLimit :: f1.1,
             some ("Brief channel not text-based: " ++ cid))
          | .ok true =>
            let f2 := fetchTextChannel env env.triageChannel
            match f2.2 with
            | .error e => (PubEff.fetchUnposted v env.publishLimit :: f1.1 ++ f2.1, some e)
            | .ok triageOk =>
              let lp := pubLoop env v label cid triageOk items
              (PubEff.fetchUnposted v env.publishLimit :: f1.1 ++ f2.1 ++ lp.1, lp.2)

/-- Model of publishVerticalOnce (lines 251-306): the reentrancy check, the
try body, the catch that logs the crash, and the finally that clears the
lock for this vertical. -/
def publishVerticalOnce (env : PubEnv) (locks : String → Bool) (v : String) :
    (String → Bool) × List PubEff :=
  if locks v then (locks, [])
  else
    let b := pubBody env v
    let effs := match b.2 with
      | some e => b.1 ++ [PubEff.log (pubCrashMsg v e)]
      | none => b.1
    (fun w => if w = v then false else locks w, effs)

/-! Length lemmas for the rendering proofs. -/

theorem jsLen_append (a b : String) : jsLen (a ++ b) = jsLen a + jsLen b := by
  rcases a with ⟨la⟩
  rcases b with ⟨lb⟩
  show jsLen (String.mk (la ++ lb)) = jsLen (String.mk la) + jsLen (String.mk lb)
  simp [jsLen, List.map_append]

theorem jsLen_ne (a b : String) (h : jsLen a ≠ jsLen b) : a ≠ b := by
  intro he
  exact h (by rw [he])

theorem jsLen_foldl (sep : String) (xs : List String) (a : String) :
    jsLen (xs.foldl (fun u v => u ++ sep ++ v) a) =
      jsLen a + (xs.map (fun v => jsLen sep + jsLen v)).sum := by
  induction xs generalizing a with
  | nil => simp
  | cons x xs ih => simp [List.foldl_cons, ih, jsLen_append]; ring

theorem jsLen_join (sep x : String) (xs : List String) :
    jsLen (jsJoin sep (x :: xs)) = jsLen x + (xs.map (fun v => jsLen sep + jsLen v)).sum := by
  simp [jsJoin, jsLen_foldl]

theorem data_append (a b : String) : (a ++ b).data = a.data ++ b.data := by
  rcases a with ⟨la⟩
  rcases b with ⟨lb⟩
  rfl

theorem splitNlChars_ne_nil (l : List Char) : splitNlChars l ≠ [] := by
  cases l with
  | nil => simp [splitNlChars]
  | cons c cs =>
    simp only [splitNlChars]
    by_cases h : c = '\n'
    · simp [h]
    · simp only [h, reduceIte]
      cases hr : splitNlChars cs <;> simp [h]

theorem splitNlChars_append (l m : List Char) (h : '\n' ∉ l) :
    splitNlChars (l ++ m) = (l ++ (splitNlChars m).headI) :: (splitNlChars m).tail := by
  induction l with
  | nil =>
    simp only [List.nil_append]
    cases hr : splitNlChars m with
    | nil => exact absurd hr (splitNlChars_ne_nil m)
    | cons a t => simp
  | cons c l ih =>
    have hc : ¬ c = '\n' := fun hc => h (by simp [hc])
    have hl : '\n' ∉ l := fun hm => h (List.mem_cons_of_mem _ hm)
    simp only [List.cons_append, splitNlChars, hc, reduceIte]
    rw [List.append_eq, ih hl]

theorem splitNl_nl (m : List Char) : splitNlChars ('\n' :: m) = [] :: splitNlChars m := by
  simp [splitNlChars]

/-! Concrete over-ceiling publishable item: five bullet lines of four
hundred characters each, with a short tag list, titled and linked. -/

def bigA : String := String.mk (List.replicate 400 'a')

def blLine : String := "• " ++ bigA

def blC : List Char := '•' :: ' ' :: List.replicate 400 'a'

theorem jsLen_bigA : jsLen bigA = 400 := by
  have h : ∀ n : Nat, jsLen (String.mk (List.replicate n 'a')) = n := by
    intro n
    induction n with
    | zero => rfl
    | succ k ih =>
      simp only [List.replicate_succ, jsLen, List.map_cons, List.sum_cons] at ih ⊢
      simp [utf16Len] at ih ⊢
      omega
  exact h 400

theorem bigA_ne_empty : bigA ≠ "" := by
  apply jsLen_ne
  rw [jsLen_bigA]
  decide

theorem jsTrim_bigA : jsTrim bigA = bigA := by
  show jsTrim (String.mk (List.replicate 400 'a')) = String.mk (List.replicate 400 'a')
  have hdw : List.dropWhile Char.isWhitespace (List.replicate 400 'a') =
      List.replicate 400 'a' := by
    rw [List.replicate_succ]
    simp [List.dropWhile_cons]
  unfold jsTrim
  rw [hdw, List.reverse_replicate]
  rw [show (400 : Nat) = 399 + 1 from rfl, List.replicate_succ]
  simp [List.dropWhile_cons, List.reverse_replicate, List.replicate_succ]

theorem strip_bigA : stripLeadMarker bigA = bigA := by
  show stripLeadMarker (String.mk (List.replicate 400 'a')) = String.mk (List.replicate 400 'a')
  unfold stripLeadMarker stripMarkerChars
  rw [show (400 : Nat) = 399 + 1 from rfl, List.replicate_succ]
  simp [List.dropWhile_cons]

theorem jsLen_blLine : jsLen blLine = 402 := by
  rw [blLine, jsLen_append, jsLen_bigA]
  decide

def itemBig : PubItem :=
  { id := some (JsNum.num 7), relevance_score := some (JsNum.num 0), title := some ("T"),
    summary_1 := none, why_it_matters := none, url := some ("http://example.com/x"),
    bullets := some [bigA, bigA, bigA, bigA, bigA],
    tags := some (["alpha", "beta"]) }

theorem fmtBullets_big :
    fmtBullets itemBig.bullets = jsJoin ("\n") [blLine, blLine, blLine, blLine, blLine] := by
  show fmtBullets (some [bigA, bigA, bigA, bigA, bigA]) = _
  unfold fmtBullets
  simp [jsTrim_bigA, bigA_ne_empty, strip_bigA, blLine]

theorem jsLen_bb : jsLen (fmtBullets itemBig.bullets) = 2014 := by
  rw [fmtBullets_big, jsLen_join]
  simp [jsLen_blLine]
  decide

theorem bb_ne_empty : fmtBullets itemBig.bullets ≠ "" := by
  apply jsLen_ne
  rw [jsLen_bb]
  decide

theorem fmtTags_big : fmtTags itemBig.tags = "\n**Tags:** alpha, beta" := by decide

theorem noNl_blC : '\n' ∉ blC := by
  simp [blC, List.mem_replicate]

theorem splitNl_step (m : List Char) :
    splitNlChars (blC ++ '\n' :: m) = blC :: splitNlChars m := by
  rw [splitNlChars_append _ _ noNl_blC, splitNl_nl]
  simp

theorem splitNl_blC : splitNlChars blC = [blC] := by
  have h := splitNlChars_append blC [] noNl_blC
  simpa [splitNlChars] using h

theorem bb_data : (fmtBullets itemBig.bullets).data =
    blC ++ '\n' :: (blC ++ '\n' :: (blC ++ '\n' :: (blC ++ '\n' :: blC))) := by
  rw [fmtBullets_big]
  simp only [jsJoin, List.foldl_cons, List.foldl_nil]
  simp only [data_append, List.append_assoc]
  norm_num [show blLine.data = blC from rfl, show ("\n" : String).data = ['\n'] from rfl]

theorem jsSplitNl_bb :
    jsSplitNl (fmtBullets itemBig.bullets) = [blLine, blLine, blLine, blLine, blLine] := by
  unfold jsSplitNl
  rw [bb_data, splitNl_step, splitNl_step, splitNl_step, splitNl_step, splitNl_blC]
  simp [show String.mk blC = blLine from rfl]

theorem shortB_big : briefShortBullets itemBig = jsJoin ("\n") [blLine, blLine, blLine] := by
  unfold briefShortBullets
  rw [if_pos bb_ne_empty, jsSplitNl_bb]
  rfl

theorem jsLen_shortB : jsLen (briefShortBullets itemBig) = 1208 := by
  rw [shortB_big, jsLen_join]
  simp [jsLen_blLine]
  decide

theorem shortB_ne_empty : briefShortBullets itemBig ≠ "" := by
  apply jsLen_ne
  rw [jsLen_shortB]
  decide

theorem jsLen_first_big : jsLen (briefFirstRender itemBig ("REE")) = 2111 := by
  unfold briefFirstRender
  have h1 : briefSummary itemBig = "" := by decide
  have h2 : briefWhy itemBig = "" := by decide
  have h3 : briefUrl itemBig = "http://example.com/x" := by decide
  have h4 : briefTitle itemBig = "T" := by decide
  have h5 : briefHeader itemBig ("REE") = "🟣 **REE Brief** | Score: **0**" := by decide
  have hbne : ("\n" ++ fmtBullets itemBig.bullets : String) ≠ "" := by
    apply jsLen_ne
    rw [jsLen_append, jsLen_bb]
    decide
  have hbl : jsLen ("\n" ++ fmtBullets itemBig.bullets) = 2015 := by
    rw [jsLen_append, jsLen_bb]
    decide
  rw [h1, h2, h3, h4, h5, fmtTags_big]
  simp only [ne_eq, not_true_eq_false, if_false, reduceIte, if_pos bb_ne_empty,
    if_pos (show ¬("http://example.com/x" : String) = "" from by decide)]
  have hfil : List.filter (fun x => decide ¬x = "") ["🟣 **REE Brief** | Score: **0**",
        "\n**" ++ "T" ++ "**", "", "\n" ++ fmtBullets itemBig.bullets, "",
        "\n**Tags:** alpha, beta", "\n**Source:** " ++ "http://example.com/x"] =
      ["🟣 **REE Brief** | Score: **0**", "\n**" ++ "T" ++ "**",
       "\n" ++ fmtBullets itemBig.bullets, "\n**Tags:** alpha, beta",
       "\n**Source:** " ++ "http://example.com/x"] := by
    simp only [List.filter_cons, List.filter_nil]
    norm_num [hbne]
    simp only [if_neg (show ¬("🟣 **REE Brief** | Score: **0**" : String) = "" from by decide),
      if_neg (show ¬("\n**" ++ "T" ++ "**" : String) = "" from by decide),
      if_neg (show ¬("\n**Tags:** alpha, beta" : String) = "" from by decide),
      if_neg (show ¬("\n**Source:** " ++ "http://example.com/x" : String) = "" from by decide)]
  rw [hfil]
  rw [jsLen_join]
  simp only [List.map_cons, List.map_nil, List.sum_cons, List.sum_nil, hbl]
  norm_num [show jsLen ("🟣 **REE Brief** | Score: **0**") = 31 from by decide,
    show jsLen ("\n**" ++ "T" ++ "**") = 6 from by decide,
    show jsLen ("\n**Tags:** alpha, beta") = 22 from by decide,
    show jsLen ("\n**Source:** " ++ "http://example.com/x") = 33 from by decide,
    show jsLen ("\n") = 1 from by decide]

theorem jsLen_second_big : jsLen (briefSecondRender itemBig ("REE")) = 1282 := by
  unfold briefSecondRender
  have h1 : briefSummary itemBig = "" := by decide
  have h2 : briefWhy itemBig = "" := by decide
  have h3 : briefUrl itemBig = "http://example.com/x" := by decide
  have h4 : briefTitle itemBig = "T" := by decide
  have h5 : briefHeader itemBig ("REE") = "🟣 **REE Brief** | Score: **0**" := by decide
  have hsne : ("\n" ++ briefShortBullets itemBig : String) ≠ "" := by
    apply jsLen_ne
    rw [jsLen_append, jsLen_shortB]
    decide
  have hsl : jsLen ("\n" ++ briefShortBullets itemBig) = 1209 := by
    rw [jsLen_append, jsLen_shortB]
    decide
  rw [h1, h2, h3, h4, h5]
  simp only [ne_eq, not_true_eq_false, if_false, reduceIte, if_pos shortB_ne_empty,
    if_pos (show ¬("http://example.com/x" : String) = "" from by decide)]
  have hfil : List.filter (fun x => decide ¬x = "") ["🟣 **REE Brief** | Score: **0**",
        "\n**" ++ "T" ++ "**", "", "\n" ++ briefShortBullets itemBig, "",
        "\n**Source:** " ++ "http://example.com/x"] =
      ["🟣 **REE Brief** | Score: **0**", "\n**" ++ "T" ++ "**",
       "\n" ++ briefShortBullets itemBig,
       "\n**Source:** " ++ "http://example.com/x"] := by
    simp only [List.filter_cons, List.filter_nil]
    norm_num [hsne]
    simp only [if_neg (show ¬("🟣 **REE Brief** | Score: **0**" : String) = "" from by decide),
      if_neg (show ¬("\n**" ++ "T" ++ "**" : String) = "" from by decide),
      if_neg (show ¬("\n**Source:** " ++ "http://example.com/x" : String) = "" from by decide)]
  rw [hfil]
  rw [jsLen_join]
  simp only [List.map_cons, List.map_nil, List.sum_cons, List.sum_nil, hsl]
  norm_num [show jsLen ("🟣 **REE Brief** | Score: **0**") = 31 from by decide,
    show jsLen ("\n**" ++ "T" ++ "**") = 6 from by decide,
    show jsLen ("\n**Source:** " ++ "http://example.com/x") = 33 from by decide,
    show jsLen ("\n") = 1 from by decide]

theorem jsLen_shortRender_big : jsLen (briefShortBulletsRender itemBig ("REE")) = 1305 := by
  unfold briefShortBulletsRender
  have h1 : briefSummary itemBig = "" := by decide
  have h2 : briefWhy itemBig = "" := by decide
  have h3 : briefUrl itemBig = "http://example.com/x" := by decide
  have h4 : briefTitle itemBig = "T" := by decide
  have h5 : briefHeader itemBig ("REE") = "🟣 **REE Brief** | Score: **0**" := by decide
  have hsne : ("\n" ++ briefShortBullets itemBig : String) ≠ "" := by
    apply jsLen_ne
    rw [jsLen_append, jsLen_shortB]
    decide
  have hsl : jsLen ("\n" ++ briefShortBullets itemBig) = 1209 := by
    rw [jsLen_append, jsLen_shortB]
    decide
  rw [h1, h2, h3, h4, h5, fmtTags_big]
  simp only [ne_eq, not_true_eq_false, if_false, reduceIte, if_pos shortB_ne_empty,
    if_pos (show ¬("http://example.com/x" : String) = "" from by decide)]
  have hfil : List.filter (fun x => decide ¬x = "") ["🟣 **REE Brief** | Score: **0**",
        "\n**" ++ "T" ++ "**", "", "\n" ++ briefShortBullets itemBig, "",
        "\n**Tags:** alpha, beta", "\n**Source:** " ++ "http://example.com/x"] =
      ["🟣 **REE Brief** | Score: **0**", "\n**" ++ "T" ++ "**",
       "\n" ++ briefShortBullets itemBig, "\n**Tags:** alpha, beta",
       "\n**Source:** " ++ "http://example.com/x"] := by
    simp only [List.filter_cons, List.filter_nil]
    norm_num [hsne]
    simp only [if_neg (show ¬("🟣 **REE Brief** | Score: **0**" : String) = "" from by decide),
      if_neg (show ¬("\n**" ++ "T" ++ "**" : String) = "" from by decide),
      if_neg (show ¬("\n**Tags:** alpha, beta" : String) = "" from by decide),
      if_neg (show ¬("\n**Source:** " ++ "http://example.com/x" : String) = "" from by decide)]
  rw [hfil]
  rw [jsLen_join]
  simp only [List.map_cons, List.map_nil, List.sum_cons, List.sum_nil, hsl]
  norm_num [show jsLen ("🟣 **REE Brief** | Score: **0**") = 31 from by decide,
    show jsLen ("\n**" ++ "T" ++ "**") = 6 from by decide,
    show jsLen ("\n**Tags:** alpha, beta") = 22 from by decide,
    show jsLen ("\n**Source:** " ++ "http://example.com/x") = 33 from by decide,
    show jsLen ("\n") = 1 from by decide]

/-! Soundness of the mark-posted effect: it can only arise inside the item
step, after a successful channel send for that item. -/

theorem fetchTextChannel_no_mark (env : PubEnv) (cid : String) (ids : List ℚ) :
    PubEff.markPosted ids ∉ (fetchTextChannel env cid).1 := by
  unfold fetchTextChannel
  by_cases h : cid = "" <;> simp [h]

theorem pubStep_markPosted_sound (env : PubEnv) (v label cid : String) (triageOk : Bool)
    (item : PubItem) (id : ℚ)
    (h : PubEff.markPosted [id] ∈ (pubStep env v label cid triageOk item).1) :
    idVal item = some id ∧ 0 < id ∧ env.send cid (pubMsg item label) = Except.ok () := by
  unfold pubStep at h
  cases hq : idVal item with
  | none => simp only [hq] at h; simp at h
  | some q =>
    simp only [hq] at h
    by_cases hle : q ≤ 0
    · rw [if_pos hle] at h; simp at h
    · rw [if_neg hle] at h
      cases hsend : env.send cid (pubMsg item label) with
      | error e => simp only [hsend] at h; simp at h
      | ok u =>
        simp only [hsend] at h
        cases u
        have hid : id = q := by
          cases hfv : JsNum.finiteVal (scoreOf item) with
          | none =>
            simp only [hfv] at h
            simp [markEffs] at h
            cases hmp : env.markPosted [q] <;> simp only [hmp] at h <;> simp at h <;> simp [h]
          | some s =>
            simp only [hfv] at h
            by_cases htr : triageOk = true ∧ (env.triageScore : ℚ) ≤ s
            · rw [if_pos htr] at h
              cases hts : env.send env.triageChannel (triageMsg label (scoreOf item) (pubMsg item label)) with
              | error e => simp only [hts] at h; simp at h
              | ok u2 =>
                simp only [hts] at h
                simp [markEffs] at h
                cases hmp : env.markPosted [q] <;> simp only [hmp] at h <;> simp at h <;> simp [h]
            · rw [if_neg htr] at h
              simp [markEffs] at h
              cases hmp : env.markPosted [q] <;> simp only [hmp] at h <;> simp at h <;> simp [h]
        subst hid
        exact ⟨rfl, not_le.mp hle, rfl⟩

theorem pubLoop_markPosted_sound (env : PubEnv) (v label cid : String) (triageOk : Bool) :
    ∀ (items : List PubItem) (id : ℚ),
      PubEff.markPosted [id] ∈ (pubLoop env v label cid triageOk items).1 →
      ∃ it ∈ items, idVal it = some id ∧ 0 < id ∧ env.send cid (pubMsg it label) = Except.ok () := by
  intro items
  induction items with
  | nil => intro id h; simp [pubLoop] at h
  | cons it rest ih =>
    intro id h
    simp only [pubLoop] at h
    cases hstep : pubStep env v label cid triageOk it with
    | mk effs err =>
      simp only [hstep] at h
      cases err with
      | some e =>
        have hm : PubEff.markPosted [id] ∈ (pubStep env v label cid triageOk it).1 := by
          rw [hstep]; exact h
        obtain ⟨h1, h2, h3⟩ := pubStep_markPosted_sound env v label cid triageOk it id hm
        exact ⟨it, List.mem_cons_self it rest, h1, h2, h3⟩
      | none =>
        simp only [List.mem_append] at h
        rcases h with h | h
        · have hm : PubEff.markPosted [id] ∈ (pubStep env v label cid triageOk it).1 := by
            rw [hstep]; exact h
          obtain ⟨h1, h2, h3⟩ := pubStep_markPosted_sound env v label cid triageOk it id hm
          exact ⟨it, List.mem_cons_self it rest, h1, h2, h3⟩
        · obtain ⟨it2, hmem, h1, h2, h3⟩ := ih id h
          exact ⟨it2, List.mem_cons_of_mem it hmem, h1, h2, h3⟩

/-! Validator values carried by an error report of pollOneFeed. -/

/-- Validators the catch block of pollOneFeed would report: the prior
(normalized) ones before the response headers are captured, the response
headers with prior fallback once a success-status response has been
received. -/
def pollErrValidators (env : PollEnv) (src : FeedSource) : Option String × Option String :=
  match env.fetchResult with
  | .err _ => (jsOrNull src.etag, jsOrNull src.last_modified)
  | .resp st etH lmH _ =>
    if resOk st = true ∧ st ≠ 304 then
      (jsOrElse etH (jsOrNull src.etag), jsOrElse lmH (jsOrNull src.last_modified))
    else (jsOrNull src.etag, jsOrNull src.last_modified)

theorem pollOneFeedBody_validators (env : PollEnv) (maxItems : Nat) (src : FeedSource) :
    ((pollOneFeedBody env maxItems src).etagV, (pollOneFeedBody env maxItems src).lmV) =
      pollErrValidators env src := by
  obtain ⟨fr, pf, sq, ig⟩ := env
  unfold pollOneFeedBody pollErrValidators
  cases fr with
  | err e => rfl
  | resp st etH lmH body =>
    simp only []
    by_cases h304 : st = 304
    · have hok : resOk st = false := by subst h304; rfl
      simp [h304, hok]
    · by_cases hok : resOk st = true
      · rw [if_neg h304, if_neg (by simp [hok] : ¬ resOk st = false), if_pos ⟨hok, h304⟩]
        cases hp : pf body with
        | error pe => simp [hp]
        | ok parsed =>
          simp only [hp]
          split
          · rfl
          · split
            · rfl
            · rfl
      · have hokf : resOk st = false := by revert hok; cases resOk st <;> simp
        rw [if_neg h304, if_pos hokf, if_neg (by simp [hok])]

/-! Concrete feed items, sources and environments used by the witnesses
and counterexamples. -/

def it1C : RawItem := ⟨some (TextVal.str ("K1")), none, some (LinkVal.str ("http://k1")), none⟩

def it2C : RawItem := ⟨some (TextVal.str ("K2")), none, some (LinkVal.str ("http://k2")), none⟩

def itAW : RawItem := ⟨some (TextVal.str ("A")), none, some (LinkVal.str ("http://a")), none⟩

def itBW : RawItem := ⟨some (TextVal.str ("B")), none, some (LinkVal.str ("http://b")), none⟩

def itCW : RawItem := ⟨some (TextVal.str ("C")), none, some (LinkVal.str ("http://c")), none⟩

def srcC : FeedSource := ⟨"s1", "http://feed.example/rss", "ree", "Example", some ("E1"), none⟩

/-- Environment in which the first of two unseen items fails ingestion. -/
def c1Env : PollEnv :=
  { fetchResult := FetchOut.resp 200 none none ("feedbody"),
    parse := fun _ => Except.ok ⟨some (OneOrMany.many [it1C, it2C]), none⟩,
    seenQuery := fun _ => Except.ok [],
    ingest := fun u => if u = "http://k1" then Except.error ("boom") else Except.ok ⟨true⟩ }

/-- Environment in which the response carries a fresh etag but the body
fails to parse. -/
def c2Env : PollEnv :=
  { fetchResult := FetchOut.resp 200 (some ("E2")) none ("not xml"),
    parse := fun _ => Except.error ("parse fail"),
    seenQuery := fun _ => Except.ok [],
    ingest := fun _ => Except.ok ⟨true⟩ }

/-- Environment returning a not-modified response. -/
def c4Env : PollEnv :=
  { fetchResult := FetchOut.resp 304 none none (""),
    parse := fun _ => Except.ok ⟨none, none⟩,
    seenQuery := fun _ => Except.ok [],
    ingest := fun _ => Except.ok ⟨true⟩ }

/-- Environment with three candidate items of which the first two are
already seen and the third ingests as a fresh insert. -/
def c5Env : PollEnv :=
  { fetchResult := FetchOut.resp 200 (some ("E2")) none ("feedbody"),
    parse := fun _ => Except.ok ⟨some (OneOrMany.many [itAW, itBW, itCW]), none⟩,
    seenQuery := fun _ => Except.ok ["A", "B"],
    ingest := fun _ => Except.ok ⟨true⟩ }

def itemW : PubItem :=
  { id := some (JsNum.num 5), relevance_score := some (JsNum.num 90), title := some ("T"),
    summary_1 := none, why_it_matters := none, url := some ("http://x"),
    bullets := none, tags := none }

def item84 : PubItem := { itemW with relevance_score := some (JsNum.num 84) }

def item85 : PubItem := { itemW with relevance_score := some (JsNum.num 85) }

def itemNoId : PubItem := { itemW with id := none }

/-- Publisher environment in which every oracle succeeds. -/
def pubEnvW : PubEnv :=
  { reeBrief := "chan-ree", coalBrief := "", triageChannel := "chan-triage",
    publishLimit := 5, triageScore := 85,
    fetchUnposted := fun _ _ => Except.ok [itemW],
    chFetch := fun _ => Except.ok true,
    send := fun _ _ => Except.ok (),
    markPosted := fun _ => Except.ok 1 }

/-- Claim C1 as written is false on the code: in the environment c1Env the
first item fails ingestion and the sibling item with key K2 is neither
ingested nor counted, and the report carries an empty newly-seen list, so
the successfully processed siblings would not appear either; the whole
poll errors. -/
theorem c1_counterexample :
    pollOneFeed c1Env 10 srcC =
      ([PollEff.seenQuery ("s1") ["K1", "K2"],
        PollEff.ingest ("http://k1") ("ree") ("s1") ("Example") ("rss"),
        PollEff.report ⟨"s1", some ("E1"), none, some ("boom"), []⟩],
       Except.error ("boom")) ∧
    PollEff.ingest ("http://k2") ("ree") ("s1") ("Example") ("rss") ∉
      (pollOneFeed c1Env 10 srcC).1 := by
  constructor
  · rfl
  · decide

/-- Claim C1, amended: a per-item ingestion failure in pollOneFeed aborts
the remaining items of the source (there is no per-item catch): the error
propagates to the catch of the poll, the report carries an empty
newly-seen list (excluding the failed key and every sibling key), and the
error is re-raised; isolation exists only at source granularity. -/
theorem c1_ingest_failure_aborts_source (env : PollEnv) (maxItems : Nat) (src : FeedSource)
    (it1 it2 : RawItem) (k1 k2 e : String)
    (st : Nat) (etH lmH : Option String) (body : String) (pd : ParsedDoc)
    (hf : env.fetchResult = FetchOut.resp st etH lmH body)
    (hok : resOk st = true) (h304 : st ≠ 304)
    (hp : env.parse body = Except.ok pd)
    (hpick : pickRssItems pd = [it1, it2])
    (hmax : 2 ≤ maxItems)
    (hk1 : getItemKey it1 = k1) (hk1ne : k1 ≠ "")
    (hk2 : getItemKey it2 = k2) (hk2ne : k2 ≠ "")
    (hl1ne : getItemLink it1 ≠ "")
    (hseen : env.seenQuery [k1, k2] = Except.ok [])
    (hing : env.ingest (getItemLink it1) = Except.error e) :
    pollOneFeed env maxItems src =
      ([PollEff.seenQuery src.id [k1, k2],
        PollEff.ingest (getItemLink it1) src.vertical src.id src.name (sourceTypeOf src),
        PollEff.report ⟨src.id, jsOrElse etH (jsOrNull src.etag),
          jsOrElse lmH (jsOrNull src.last_modified), some e, []⟩],
       Except.error e) := by
  have htake : ([it1, it2] : List RawItem).take maxItems = [it1, it2] :=
    List.take_of_length_le (by simpa using hmax)
  have hloop : pollItems env src (sourceTypeOf src) [] [it1, it2] =
      ⟨[PollEff.ingest (getItemLink it1) src.vertical src.id src.name (sourceTypeOf src)],
       0, 0, [], some e⟩ := by
    simp [pollItems, hk1, hk1ne, hl1ne, hing]
  have hb : pollOneFeedBody env maxItems src =
      ⟨[PollEff.seenQuery src.id [k1, k2],
        PollEff.ingest (getItemLink it1) src.vertical src.id src.name (sourceTypeOf src)],
       jsOrElse etH (jsOrNull src.etag), jsOrElse lmH (jsOrNull src.last_modified),
       Except.error e⟩ := by
    unfold pollOneFeedBody
    rw [hf]
    simp [h304, hok, hp, hpick, htake, hk1, hk2, hk1ne, hk2ne, hseen, hloop]
  unfold pollOneFeed
  rw [hb]
  simp

/-- Witness for the amended claim C1, at the concrete environment c1Env. -/
theorem c1_witness :
    pollOneFeed c1Env 10 srcC =
      ([PollEff.seenQuery ("s1") ["K1", "K2"],
        PollEff.ingest ("http://k1") ("ree") ("s1") ("Example") ("rss"),
        PollEff.report ⟨"s1", some ("E1"), none, some ("boom"), []⟩],
       Except.error ("boom")) := by
  have h := c1_ingest_failure_aborts_source c1Env 10 srcC it1C it2C ("K1") ("K2") ("boom")
    200 none none ("feedbody") ⟨some (OneOrMany.many [it1C, it2C]), none⟩
    rfl rfl (by decide) rfl rfl (by decide) rfl (by decide) rfl (by decide) (by decide) rfl rfl
  simpa [srcC, jsOrElse, jsOrNull, show getItemLink it1C = "http://k1" from rfl,
    show sourceTypeOf srcC = "rss" from rfl] using h

/-- Claim C2 as written is false on the code: in the environment c2Env the
parse fails after the response headers were captured, and the error report
carries the fresh response etag E2, not the prior last known-good etag E1
of the source. -/
theorem c2_counterexample :
    pollOneFeed c2Env 10 srcC =
      ([PollEff.report ⟨"s1", some ("E2"), none, some ("parse fail"), []⟩],
       Except.error ("parse fail")) ∧
    srcC.etag = some ("E1") ∧ (some ("E2") : Option String) ≠ some ("E1") := by
  refine ⟨rfl, rfl, by decide⟩

/-- Claim C2, amended: every erroring poll reports an empty newly-seen
list with the error recorded, as its last effect, and re-raises; the
reported validators are the prior last known-good values only for errors
raised before the response headers are captured (network failure,
non-success status), while errors after capture (parse, seen-key query,
ingestion) report the validators of the response, falling back to the
prior values when the response did not supply them. -/
theorem c2_error_report (env : PollEnv) (maxItems : Nat) (src : FeedSource) (e : String)
    (h : (pollOneFeed env maxItems src).2 = Except.error e) :
    (pollOneFeed env maxItems src).1.getLast? =
      some (PollEff.report ⟨src.id, (pollErrValidators env src).1,
        (pollErrValidators env src).2, some e, []⟩) ∧
    (∀ e2, env.fetchResult = FetchOut.err e2 →
      pollErrValidators env src = (jsOrNull src.etag, jsOrNull src.last_modified)) ∧
    (∀ st etH lmH body, env.fetchResult = FetchOut.resp st etH lmH body → resOk st = false →
      pollErrValidators env src = (jsOrNull src.etag, jsOrNull src.last_modified)) := by
  refine ⟨?_, ?_, ?_⟩
  · have hv := pollOneFeedBody_validators env maxItems src
    unfold pollOneFeed at h ⊢
    cases hB : pollOneFeedBody env maxItems src with
    | mk effs etagV lmV result =>
      rw [hB] at hv
      cases result with
      | ok c => rw [hB] at h; simp at h
      | error e2 =>
        rw [hB] at h
        simp [Prod.ext_iff] at h hv ⊢
        exact ⟨hv.1, hv.2, by simpa using h⟩
  · intro e2 hf
    unfold pollErrValidators
    rw [hf]
  · intro st etH lmH body hf hok
    unfold pollErrValidators
    rw [hf]
    simp [hok]

/-- Witness for the amended claim C2, at the concrete environment c2Env. -/
theorem c2_witness :
    (pollOneFeed c2Env 10 srcC).1.getLast? =
      some (PollEff.report ⟨"s1", some ("E2"), none, some ("parse fail"), []⟩) := by
  have h := (c2_error_report c2Env 10 srcC ("parse fail") rfl).1
  simpa [srcC, show pollErrValidators c2Env srcC = (some ("E2"), none) from rfl] using h

/-- Claim C3: a mark-posted call for an id can appear in the trace of a
publish cycle only for an item of the fetched batch whose channel send
completed without error (and whose id was finite and positive); since the
send oracle is a function, a failing send admits no such call, and the
send effect precedes the mark-posted effect in the per-item step. -/
theorem c3_mark_posted_after_send (env : PubEnv) (locks : String → Bool) (v : String) (id : ℚ)
    (h : PubEff.markPosted [id] ∈ (publishVerticalOnce env locks v).2) :
    ∃ cid label, pubChannel env v = some (cid, label) ∧
      ∃ items, env.fetchUnposted v env.publishLimit = Except.ok items ∧
        ∃ it ∈ items, idVal it = some id ∧ 0 < id ∧
          env.send cid (pubMsg it label) = Except.ok () := by
  unfold publishVerticalOnce at h
  by_cases hl : locks v
  · simp [hl] at h
  · simp only [hl, if_false, Bool.false_eq_true] at h
    have hb : PubEff.markPosted [id] ∈ (pubBody env v).1 := by
      rcases hcr : (pubBody env v).2 with _ | e
      · simpa [hcr] using h
      · rw [hcr] at h
        simp only [List.mem_append, List.mem_singleton] at h
        rcases h with h | h
        · exact h
        · exact absurd h (by simp)
    clear h
    unfold pubBody at hb
    cases hch : pubChannel env v with
    | none => simp [hch] at hb
    | some p =>
      cases p with
      | mk cid label =>
        simp only [hch] at hb
        by_cases hcid : cid = ""
        · simp [hcid] at hb
        · rw [if_neg hcid] at hb
          cases hfu : env.fetchUnposted v env.publishLimit with
          | error e => simp only [hfu] at hb; simp at hb
          | ok items =>
            simp only [hfu] at hb
            by_cases hni : items = []
            · simp [hni] at hb
            · rw [if_neg hni] at hb
              cases hf1 : (fetchTextChannel env cid).2 with
              | error e =>
                simp only [hf1] at hb
                simp at hb
                exact absurd hb (fetchTextChannel_no_mark env cid [id])
              | ok b1 =>
                cases b1 with
                | false =>
                  simp only [hf1] at hb
                  simp at hb
                  exact absurd hb (fetchTextChannel_no_mark env cid [id])
                | true =>
                  simp only [hf1] at hb
                  cases hf2 : (fetchTextChannel env env.triageChannel).2 with
                  | error e =>
                    simp only [hf2] at hb
                    simp at hb
                    rcases hb with hb | hb
                    · exact absurd hb (fetchTextChannel_no_mark env cid [id])
                    · exact absurd hb (fetchTextChannel_no_mark env env.triageChannel [id])
                  | ok triageOk =>
                    simp only [hf2] at hb
                    simp at hb
                    rcases hb with hb | hb | hb
                    · exact absurd hb (fetchTextChannel_no_mark env cid [id])
                    · exact absurd hb (fetchTextChannel_no_mark env env.triageChannel [id])
                    · obtain ⟨it, hmem, h1, h2, h3⟩ :=
                        pubLoop_markPosted_sound env v label cid triageOk items id hb
                      exact ⟨cid, label, rfl, items, rfl, it, hmem, h1, h2, h3⟩

/-- Witness for claim C3: in the all-success environment the mark-posted
effect for id 5 occurs and the theorem recovers the sending item. -/
theorem c3_witness :
    ∃ cid label, pubChannel pubEnvW ("ree") = some (cid, label) ∧
      ∃ items, pubEnvW.fetchUnposted ("ree") pubEnvW.publishLimit = Except.ok items ∧
        ∃ it ∈ items, idVal it = some 5 ∧ (0 : ℚ) < 5 ∧
          pubEnvW.send cid (pubMsg it label) = Except.ok () :=
  c3_mark_posted_after_send pubEnvW (fun _ => false) ("ree") 5 (by decide)

/-- Claim C4: a not-modified response short-circuits the poll as a
success, reporting the current (prior) validators with a null error and
an empty newly-seen list, returning zero counts, and never calling the
ingestion client. -/
theorem c4_not_modified_short_circuit (env : PollEnv) (maxItems : Nat) (src : FeedSource)
    (etH lmH : Option String) (body : String)
    (h : env.fetchResult = FetchOut.resp 304 etH lmH body) :
    pollOneFeed env maxItems src =
      ([PollEff.report ⟨src.id, jsOrNull src.etag, jsOrNull src.last_modified, none, []⟩],
       Except.ok ⟨0, 0, 0⟩) ∧
    ∀ u a b c d, PollEff.ingest u a b c d ∉ (pollOneFeed env maxItems src).1 := by
  have hb : pollOneFeedBody env maxItems src =
      ⟨[PollEff.report ⟨src.id, jsOrNull src.etag, jsOrNull src.last_modified, none, []⟩],
       jsOrNull src.etag, jsOrNull src.last_modified, Except.ok ⟨0, 0, 0⟩⟩ := by
    unfold pollOneFeedBody
    rw [h]
    simp
  constructor
  · unfold pollOneFeed
    rw [hb]
  · intro u a b c d
    unfold pollOneFeed
    rw [hb]
    simp

/-- Witness for claim C4 at the concrete environment c4Env. -/
theorem c4_witness :
    pollOneFeed c4Env 10 srcC =
      ([PollEff.report ⟨"s1", some ("E1"), none, none, []⟩], Except.ok ⟨0, 0, 0⟩) := by
  have h := (c4_not_modified_short_circuit c4Env 10 srcC none none ("") rfl).1
  simpa [srcC, jsOrNull] using h

/-- Claim C5: with candidate keys A, B, C and seen response listing A and
B, only the item with key C is forwarded to the ingestion client, the
items with keys A and B are counted skipped without an ingestion call,
and the success report lists exactly C as newly seen when the ingestion
call for C succeeds. -/
theorem c5_seen_filter (env : PollEnv) (maxItems : Nat) (src : FeedSource)
    (itA itB itC : RawItem) (kA kB kC lA lB lC : String) (out : IngestResp)
    (st : Nat) (etH lmH : Option String) (body : String) (pd : ParsedDoc)
    (hf : env.fetchResult = FetchOut.resp st etH lmH body)
    (hok : resOk st = true) (h304 : st ≠ 304)
    (hp : env.parse body = Except.ok pd)
    (hpick : pickRssItems pd = [itA, itB, itC])
    (hmax : 3 ≤ maxItems)
    (hkA : getItemKey itA = kA) (hkAne : kA ≠ "")
    (hkB : getItemKey itB = kB) (hkBne : kB ≠ "")
    (hkC : getItemKey itC = kC) (hkCne : kC ≠ "")
    (hlA : getItemLink itA = lA) (hlAne : lA ≠ "")
    (hlB : getItemLink itB = lB) (hlBne : lB ≠ "")
    (hlC : getItemLink itC = lC) (hlCne : lC ≠ "")
    (hseen : env.seenQuery [kA, kB, kC] = Except.ok [kA, kB])
    (hCA : kC ≠ kA) (hCB : kC ≠ kB)
    (hing : env.ingest lC = Except.ok out) :
    pollOneFeed env maxItems src =
      ([PollEff.seenQuery src.id [kA, kB, kC],
        PollEff.ingest lC src.vertical src.id src.name (sourceTypeOf src),
        PollEff.report ⟨src.id, jsOrElse etH (jsOrNull src.etag),
          jsOrElse lmH (jsOrNull src.last_modified), none, [kC]⟩],
       Except.ok ⟨3, (if out.inserted then 1 else 0), (if out.inserted then 0 else 1) + 2⟩) := by
  have htake : ([itA, itB, itC] : List RawItem).take maxItems = [itA, itB, itC] :=
    List.take_of_length_le (by simpa using hmax)
  have hloop : pollItems env src (sourceTypeOf src) [kA, kB] [itA, itB, itC] =
      ⟨[PollEff.ingest lC src.vertical src.id src.name (sourceTypeOf src)],
       (if out.inserted then 1 else 0), (if out.inserted then 0 else 1) + 2, [kC], none⟩ := by
    simp [pollItems, hkA, hkB, hkC, hkAne, hkBne, hkCne, hlA, hlB, hlC, hlAne, hlBne, hlCne,
      hCA, hCB, hing]
  have hb : pollOneFeedBody env maxItems src =
      ⟨[PollEff.seenQuery src.id [kA, kB, kC],
        PollEff.ingest lC src.vertical src.id src.name (sourceTypeOf src),
        PollEff.report ⟨src.id, jsOrElse etH (jsOrNull src.etag),
          jsOrElse lmH (jsOrNull src.last_modified), none, [kC]⟩],
       jsOrElse etH (jsOrNull src.etag), jsOrElse lmH (jsOrNull src.last_modified),
       Except.ok ⟨3, (if out.inserted then 1 else 0), (if out.inserted then 0 else 1) + 2⟩⟩ := by
    unfold pollOneFeedBody
    rw [hf]
    simp [h304, hok, hp, hpick, htake, hkA, hkB, hkC, hkAne, hkBne, hkCne, hseen, hloop]
  unfold pollOneFeed
  rw [hb]

/-- Witness for claim C5 at the concrete environment c5Env: C ingests as a
fresh insert, the counts are three fetched, one ingested, two skipped. -/
theorem c5_witness :
    pollOneFeed c5Env 10 srcC =
      ([PollEff.seenQuery ("s1") ["A", "B", "C"],
        PollEff.ingest ("http://c") ("ree") ("s1") ("Example") ("rss"),
        PollEff.report ⟨"s1", some ("E2"), none, none, ["C"]⟩],
       Except.ok ⟨3, 1, 2⟩) := by
  have h := c5_seen_filter c5Env 10 srcC itAW itBW itCW ("A") ("B") ("C")
    ("http://a") ("http://b") ("http://c") ⟨true⟩
    200 (some ("E2")) none ("feedbody") ⟨some (OneOrMany.many [itAW, itBW, itCW]), none⟩
    rfl rfl (by decide) rfl rfl (by decide)
    rfl (by decide) rfl (by decide) rfl (by decide)
    rfl (by decide) rfl (by decide) rfl (by decide)
    rfl (by decide) (by decide) rfl
  simpa [srcC, jsOrElse, jsOrNull, show sourceTypeOf srcC = "rss" from rfl] using h

/-- Claim C6: with the per-vertical flag set, a publish invocation for the
same vertical returns immediately with no effects and leaves every lock
unchanged; with the flag clear, the invocation leaves the flag cleared on
exit regardless of how the body ended (the finally block), touching no
other lock. -/
theorem c6_publish_lock (env : PubEnv) (locks : String → Bool) (v : String) :
    (locks v = true → publishVerticalOnce env locks v = (locks, [])) ∧
    (locks v = false →
      ((publishVerticalOnce env locks v).1 v = false ∧
       ∀ w, w ≠ v → (publishVerticalOnce env locks v).1 w = locks w)) := by
  constructor
  · intro h
    simp [publishVerticalOnce, h]
  · intro h
    constructor
    · simp [publishVerticalOnce, h]
    · intro w hw
      simp [publishVerticalOnce, h, hw]

/-- Witness for claim C6 at the all-success environment, once with the
lock held and once with it clear. -/
theorem c6_witness :
    publishVerticalOnce pubEnvW (fun _ => true) ("ree") = ((fun _ => true), []) ∧
    (publishVerticalOnce pubEnvW (fun _ => false) ("ree")).1 ("ree") = false ∧
    (publishVerticalOnce pubEnvW (fun _ => false) ("ree")).1 ("coal") = false :=
  ⟨(c6_publish_lock pubEnvW (fun _ => true) ("ree")).1 rfl,
   ((c6_publish_lock pubEnvW (fun _ => false) ("ree")).2 rfl).1,
   ((c6_publish_lock pubEnvW (fun _ => false) ("ree")).2 rfl).2 ("coal") (by decide)⟩

/-- Claim C7: for an item whose send succeeded, with a fetchable triage
channel, a score strictly below the threshold produces a step trace with
no triage send at all, while a score exactly equal to the threshold
produces a trace whose second effect is the triage send (inclusive
boundary). -/
theorem c7_triage_threshold (env : PubEnv) (v label cid : String) (item : PubItem) (q s : ℚ)
    (hq : idVal item = some q) (hpos : 0 < q)
    (hsend : env.send cid (pubMsg item label) = Except.ok ())
    (hs : JsNum.finiteVal (scoreOf item) = some s) :
    (s < (env.triageScore : ℚ) →
      pubStep env v label cid true item =
        (PubEff.send cid (pubMsg item label) :: markEffs env v q, markErr env q)) ∧
    ((env.triageScore : ℚ) = s →
      ∃ tl, (pubStep env v label cid true item).1 =
        PubEff.send cid (pubMsg item label) ::
          PubEff.send env.triageChannel (triageMsg label (scoreOf item) (pubMsg item label)) :: tl) := by
  have hpos2 : ¬ q ≤ 0 := not_le.mpr hpos
  constructor
  · intro hlt
    have hnot : ¬ ((env.triageScore : ℚ) ≤ s) := not_le.mpr hlt
    simp [pubStep, hq, hpos2, hsend, hs, hnot]
  · intro heq
    have hle : (env.triageScore : ℚ) ≤ s := le_of_eq heq
    cases hts : env.send env.triageChannel (triageMsg label (scoreOf item) (pubMsg item label)) with
    | error e =>
      exact ⟨[], by simp [pubStep, hq, hpos2, hsend, hs, hle, hts]⟩
    | ok u =>
      cases u
      exact ⟨PubEff.log (triageLogMsg v q (scoreOf item)) :: markEffs env v q,
        by simp [pubStep, hq, hpos2, hsend, hs, hle, hts, markEffs]⟩

/-- Witness for claim C7: score 84 stays below the threshold 85 and sends
no triage copy; score exactly 85 sends one. -/
theorem c7_witness :
    pubStep pubEnvW ("ree") ("REE") ("chan-ree") true item84 =
      (PubEff.send ("chan-ree") (pubMsg item84 ("REE")) :: markEffs pubEnvW ("ree") 5,
       markErr pubEnvW 5) ∧
    ∃ tl, (pubStep pubEnvW ("ree") ("REE") ("chan-ree") true item85).1 =
      PubEff.send ("chan-ree") (pubMsg item85 ("REE")) ::
        PubEff.send pubEnvW.triageChannel
          (triageMsg ("REE") (scoreOf item85) (pubMsg item85 ("REE"))) :: tl :=
  ⟨(c7_triage_threshold pubEnvW ("ree") ("REE") ("chan-ree") item84 5 84
      rfl (by decide) rfl rfl).1 (by norm_num [pubEnvW]),
   (c7_triage_threshold pubEnvW ("ree") ("REE") ("chan-ree") item85 5 85
      rfl (by decide) rfl rfl).2 (by norm_num [pubEnvW])⟩

/-- Claim C8 as written is false on the code: on the over-ceiling item
itemBig the code produces the combined re-render without tags, while the
two-stage reduction described by the spec stops after bullet truncation
and keeps the tag list, giving a different message; so tags are dropped
even though truncating bullets alone already fits the ceiling. -/
theorem c8_counterexample :
    1900 < jsLen (briefFirstRender itemBig ("REE")) ∧
    jsLen (briefShortBulletsRender itemBig ("REE")) ≤ 1900 ∧
    buildBriefMessage itemBig ("REE") = briefSecondRender itemBig ("REE") ∧
    buildBriefMessageStaged itemBig ("REE") = briefShortBulletsRender itemBig ("REE") ∧
    buildBriefMessage itemBig ("REE") ≠ buildBriefMessageStaged itemBig ("REE") := by
  have h1 : 1900 < jsLen (briefFirstRender itemBig ("REE")) := by
    rw [jsLen_first_big]; norm_num
  have h2 : ¬ 1900 < jsLen (briefSecondRender itemBig ("REE")) := by
    rw [jsLen_second_big]; norm_num
  have h3 : jsLen (briefShortBulletsRender itemBig ("REE")) ≤ 1900 := by
    rw [jsLen_shortRender_big]; norm_num
  have hcode : buildBriefMessage itemBig ("REE") = briefSecondRender itemBig ("REE") := by
    simp only [buildBriefMessage, if_pos h1, if_neg h2]
  have hstaged : buildBriefMessageStaged itemBig ("REE") = briefShortBulletsRender itemBig ("REE") := by
    simp only [buildBriefMessageStaged, if_neg (not_le.mpr h1), if_pos h3]
  refine ⟨h1, h3, hcode, hstaged, ?_⟩
  rw [hcode, hstaged]
  apply jsLen_ne
  rw [jsLen_second_big, jsLen_shortRender_big]
  norm_num

/-- Claim C8, amended: when the first render exceeds the 1900 ceiling the
code performs one combined re-render that both truncates the bullet list
to three lines and drops the tag list, and hard-truncates with a
continuation marker only if that combined render still exceeds the
ceiling; there is no intermediate render that keeps the tags. -/
theorem c8_combined_shrink (item : PubItem) (label : String)
    (h : 1900 < jsLen (briefFirstRender item label)) :
    buildBriefMessage item label =
      (if 1900 < jsLen (briefSecondRender item label)
       then jsTake 1890 (briefSecondRender item label) ++ ("…")
       else briefSecondRender item label) := by
  simp only [buildBriefMessage, if_pos h]

/-- Witness for the amended claim C8 at the over-ceiling item itemBig. -/
theorem c8_witness :
    1900 < jsLen (briefFirstRender itemBig ("REE")) ∧
    buildBriefMessage itemBig ("REE") =
      (if 1900 < jsLen (briefSecondRender itemBig ("REE"))
       then jsTake 1890 (briefSecondRender itemBig ("REE")) ++ ("…")
       else briefSecondRender itemBig ("REE")) := by
  have h1 : 1900 < jsLen (briefFirstRender itemBig ("REE")) := by
    rw [jsLen_first_big]; norm_num
  exact ⟨h1, c8_combined_shrink itemBig ("REE") h1⟩

/-- Claim C9 as written is false on the code: an out-of-range configured
value is clamped to the nearest bound of the range, not replaced by the
default (5000 clamps to the maximum 1440, and 1440 is not the default
10). -/
theorem c9_counterexample :
    clampInt (JsNum.num 5000) 10 1 1440 = 1440 ∧ (1440 : Int) ≠ 10 := by
  decide

/-- Claim C9, amended: a non-numeric configured value (one for which
Number.isFinite is false) falls back to the default; a finite value whose
floor is below the range is clamped to the minimum, one above the range
to the maximum, and one inside the range is kept (floored); clampInt is a
total function, so startup never fails on such input. -/
theorem c9_clamp_fallback (x : JsNum) (d mi ma : Int) (h : mi ≤ ma) :
    (JsNum.finiteVal x = none → clampInt x d mi ma = d) ∧
    (∀ q : ℚ, JsNum.finiteVal x = some q → Rat.floor q < mi → clampInt x d mi ma = mi) ∧
    (∀ q : ℚ, JsNum.finiteVal x = some q → ma < Rat.floor q → clampInt x d mi ma = ma) ∧
    (∀ q : ℚ, JsNum.finiteVal x = some q → mi ≤ Rat.floor q → Rat.floor q ≤ ma →
      clampInt x d mi ma = Rat.floor q) := by
  refine ⟨?_, ?_, ?_, ?_⟩
  · intro hx
    cases x <;> simp_all [clampInt, JsNum.finiteVal]
  · intro q hx hq
    cases x <;> simp_all [clampInt, JsNum.finiteVal] <;> omega
  · intro q hx hq
    cases x <;> simp_all [clampInt, JsNum.finiteVal] <;> omega
  · intro q hx h1 h2
    cases x <;> simp_all [clampInt, JsNum.finiteVal] <;> omega

/-- Witness for the amended claim C9 on the publish-interval range [1,
1440] with default 10: NaN gives the default, 0 clamps to 1, 5000 clamps
to 1440, 7 stays 7. -/
theorem c9_witness :
    clampInt JsNum.nan 10 1 1440 = 10 ∧
    clampInt (JsNum.num 0) 10 1 1440 = 1 ∧
    clampInt (JsNum.num 5000) 10 1 1440 = 1440 ∧
    clampInt (JsNum.num 7) 10 1 1440 = 7 := by
  refine ⟨(c9_clamp_fallback JsNum.nan 10 1 1440 (by decide)).1 rfl,
    (c9_clamp_fallback (JsNum.num 0) 10 1 1440 (by decide)).2.1 0 rfl (by decide),
    (c9_clamp_fallback (JsNum.num 5000) 10 1 1440 (by decide)).2.2.1 5000 rfl (by decide),
    ?_⟩
  have h := (c9_clamp_fallback (JsNum.num 7) 10 1 1440 (by decide)).2.2.2 7 rfl
    (by decide) (by decide)
  simpa using h

/-- Claim C10: an item whose id does not coerce to a finite strictly
positive number produces no effects at all in its step (no send, no
triage, no mark-posted), and the loop continues with the remaining items
unchanged. -/
theorem c10_invalid_id_skipped (env : PubEnv) (v label cid : String) (triageOk : Bool)
    (item : PubItem) (rest : List PubItem)
    (h : idVal item = none ∨ ∃ q : ℚ, idVal item = some q ∧ q ≤ 0) :
    pubStep env v label cid triageOk item = ([], none) ∧
    pubLoop env v label cid triageOk (item :: rest) = pubLoop env v label cid triageOk rest := by
  have hs : pubStep env v label cid triageOk item = ([], none) := by
    rcases h with h | ⟨q, hq, hle⟩
    · simp [pubStep, h]
    · simp [pubStep, hq, hle]
  exact ⟨hs, by simp [pubLoop, hs]⟩

/-- Witness for claim C10: an item without an id field is skipped and the
loop result equals that of the rest of the batch. -/
theorem c10_witness :
    pubStep pubEnvW ("ree") ("REE") ("chan-ree") true itemNoId = ([], none) ∧
    pubLoop pubEnvW ("ree") ("REE") ("chan-ree") true (itemNoId :: [itemW]) =
      pubLoop pubEnvW ("ree") ("REE") ("chan-ree") true [itemW] :=
  c10_invalid_id_skipped pubEnvW ("ree") ("REE") ("chan-ree") true itemNoId [itemW]
    (Or.inl rfl)
